import Mathlib

/-!
Verification development for `mermaid_from_k8s.py`: a script that turns a set
of parsed Kubernetes manifests into a Mermaid relationship graph.

The script is embedded shallowly.  Parsed YAML/Python values are modelled by
the inductive `PVal` (the manifests treated here contain only strings,
mappings with string keys, sequences and null).  Python functions that can
raise (`AttributeError` on `.get`/`.items()` of a non-mapping, `TypeError` on
`in` with an unhashable or non-container operand, `KeyError` on subscript,
`ValueError` on tuple unpacking of `str.split`) are modelled in
`Except String`, with the exception class name as the error value.

Each definition is a direct translation of the Python function of the same
name; helper definitions model one loop body or one sub-expression of the
source and are named after the function they come from.
-/

/-- A parsed Python/YAML value.  Mapping keys are modelled as strings; the
manifests this development evaluates use only string keys.  Numeric and
boolean scalars do not occur in any document considered here and are
omitted. -/
inductive PVal where
  | pnone : PVal
  | pstr : String → PVal
  | plist : List PVal → PVal
  | pdict : List (String × PVal) → PVal
deriving Repr

mutual

/-- Python `==` on modelled values (deep structural equality). -/
def PVal.beq : PVal → PVal → Bool
  | .pnone, .pnone => true
  | .pstr a, .pstr b => a == b
  | .plist xs, .plist ys => PVal.beqList xs ys
  | .pdict xs, .pdict ys => PVal.beqDict xs ys
  | _, _ => false

def PVal.beqList : List PVal → List PVal → Bool
  | [], [] => true
  | a :: as, b :: bs => PVal.beq a b && PVal.beqList as bs
  | _, _ => false

def PVal.beqDict : List (String × PVal) → List (String × PVal) → Bool
  | [], [] => true
  | (k, a) :: as, (l, b) :: bs => k == l && PVal.beq a b && PVal.beqDict as bs
  | _, _ => false

end

instance : BEq PVal := ⟨PVal.beq⟩

/-- Python truthiness of a value (`not x` is `!x.truthy`). -/
def PVal.truthy : PVal → Bool
  | .pnone => false
  | .pstr s => s != ""
  | .plist xs => !xs.isEmpty
  | .pdict es => !es.isEmpty

/-- Python `a or b` (returns `a` when truthy, else `b`). -/
def pyOr (a b : PVal) : PVal := if a.truthy then a else b

/-- First-match lookup in a mapping's entry list.  Mappings built by the
script never hold a key twice (assignment replaces in place, see
`dinsert`). -/
def dictLookup : List (String × PVal) → String → Option PVal
  | [], _ => none
  | (k, v) :: rest, key => if k == key then some v else dictLookup rest key

/-- Python `d.get(key, dflt)` with a string key; `.get` on a non-mapping
raises `AttributeError`. -/
def PVal.get (v : PVal) (key : String) (dflt : PVal) : Except String PVal :=
  match v with
  | .pdict es => .ok ((dictLookup es key).getD dflt)
  | _ => .error "AttributeError"

/-- Python `d.get(key, dflt)` where the key is itself a value: a string key
looks up, `None` is simply not found, and an unhashable key raises
`TypeError`. -/
def PVal.getp (v : PVal) (key : PVal) (dflt : PVal) : Except String PVal :=
  match v with
  | .pdict es =>
    match key with
    | .pstr s => .ok ((dictLookup es s).getD dflt)
    | .pnone => .ok dflt
    | _ => .error "TypeError"
  | _ => .error "AttributeError"

/-- Python `d[key]` subscription with a string key. -/
def PVal.item (v : PVal) (key : String) : Except String PVal :=
  match v with
  | .pdict es =>
    match dictLookup es key with
    | some x => .ok x
    | none => .error "KeyError"
  | _ => .error "TypeError"

/-- Python `d.items()`; raises `AttributeError` on non-mappings. -/
def PVal.items : PVal → Except String (List (String × PVal))
  | .pdict es => .ok es
  | _ => .error "AttributeError"

/-- Substring test, modelling Python `t in s` for strings. -/
def strContains (s t : String) : Bool :=
  (List.range (s.length + 1)).any (fun i => (s.toList.drop i).take t.length == t.toList)

/-- Python `x in c`: membership in a sequence, key membership in a mapping,
substring test on strings; `in` on `None` (and hashing an unhashable key)
raises `TypeError`. -/
def pyIn (x c : PVal) : Except String Bool :=
  match c with
  | .plist xs => .ok (xs.contains x)
  | .pdict es =>
    match x with
    | .pstr s => .ok ((dictLookup es s).isSome)
    | .pnone => .ok false
    | _ => .error "TypeError"
  | .pstr s =>
    match x with
    | .pstr t => .ok (strContains s t)
    | _ => .error "TypeError"
  | .pnone => .error "TypeError"

/-- Python `for x in c`: sequences yield their items, mappings their keys,
strings their characters; `None` is not iterable. -/
def PVal.iter : PVal → Except String (List PVal)
  | .plist xs => .ok xs
  | .pdict es => .ok (es.map (fun p => PVal.pstr p.1))
  | .pstr s => .ok (s.toList.map (fun c => PVal.pstr (String.mk [c])))
  | .pnone => .error "TypeError"

/-- Python `v == "lit"` for a string literal on the right. -/
def PVal.isStrEq (v : PVal) (s : String) : Bool :=
  match v with
  | .pstr t => t == s
  | _ => false

/-- `str()` rendering used by the f-strings that build node keys; only
string values are ever interpolated in the documents this development
evaluates, so the rendering of composite values is abbreviated. -/
def pyStr : PVal → String
  | .pstr s => s
  | .pnone => "None"
  | .pdict _ => "dict"
  | .plist _ => "list"

/-- `key(kind, ns, name)` (source line 57), also the shape of every
f-string `f"Kind|ns|name"` in the extractors. -/
def pkey (kind ns name : String) : String :=
  kind ++ "|" ++ ns ++ "|" ++ name

-- -------- match_selector (source lines 75-98) --------

/-- The `matchLabels` loop of `match_selector` (lines 80-82): compare
`labels.get(k)` against each required value, returning `False` on the first
mismatch. -/
def checkML (labels : PVal) : List (String × PVal) → Except String Bool
  | [] => .ok true
  | (k, v) :: rest => do
    let lv ← labels.get k .pnone
    if !(PVal.beq lv v) then pure false else checkML labels rest

/-- One iteration of the `matchExpressions` loop of `match_selector`
(lines 84-97); `.ok false` models the early `return False`, `.ok true`
means the expression imposed no failing constraint.  The four operator
tests are sequential `if` statements in the source; unrecognized operators
(the `Gt`/`Lt` comment on line 97) impose nothing. -/
def checkExpr (labels expr : PVal) : Except String Bool := do
  let key ← expr.get "key" .pnone
  let operator ← expr.get "operator" .pnone
  let values ← expr.get "values" (.plist [])
  let lv ← labels.getp key .pnone
  let bad1 ← if operator.isStrEq "In" then do
      let b ← pyIn lv values
      pure (!b)
    else pure false
  if bad1 then pure false else do
  let bad2 ← if operator.isStrEq "NotIn" then pyIn lv values else pure false
  if bad2 then pure false else do
  let bad3 ← if operator.isStrEq "Exists" then do
      let b ← pyIn key labels
      pure (!b)
    else pure false
  if bad3 then pure false else do
  let bad4 ← if operator.isStrEq "DoesNotExist" then pyIn key labels else pure false
  if bad4 then pure false else pure true

/-- The `matchExpressions` loop of `match_selector`. -/
def checkExprs (labels : PVal) : List PVal → Except String Bool
  | [] => .ok true
  | e :: rest => do
    let r ← checkExpr labels e
    if r then checkExprs labels rest else pure false

/-- `match_selector(labels, selector)` (source lines 75-98).  An empty
(falsy) selector returns `False` immediately; otherwise all `matchLabels`
pairs and all `matchExpressions` terms must pass. -/
def match_selector (labels selector : PVal) : Except String Bool := do
  if !selector.truthy then pure false else do
  let ml ← selector.get "matchLabels" (.pdict [])
  let mlItems ← (pyOr ml (.pdict [])).items
  let r ← checkML labels mlItems
  if !r then pure false else do
  let me ← selector.get "matchExpressions" (.plist [])
  let meList ← (pyOr me (.plist [])).iter
  checkExprs labels meList

-- -------- meta, labels_of_template, selector_of (source lines 50-73) --------

/-- `meta(obj)` (lines 50-55): kind defaults to `"Unknown"`, name to
`"noname"`, namespace to `"default"`.  The raw field values are returned;
the script interpolates them into key strings. -/
def metaOf (obj : PVal) : Except String (PVal × PVal × PVal) := do
  let kind ← obj.get "kind" (.pstr "Unknown")
  let md0 ← obj.get "metadata" (.pdict [])
  let md := pyOr md0 (.pdict [])
  let name ← md.get "name" (.pstr "noname")
  let ns ← md.get "namespace" (.pstr "default")
  pure (kind, ns, name)

/-- `labels_of_template(obj)` (lines 60-67):
`spec.template.metadata.labels or {}`. -/
def labels_of_template (obj : PVal) : Except String PVal := do
  let spec ← obj.get "spec" (.pdict [])
  let tpl ← spec.get "template" (.pdict [])
  let md ← tpl.get "metadata" (.pdict [])
  let lbls ← md.get "labels" (.pdict [])
  pure (pyOr lbls (.pdict []))

/-- `selector_of(obj)` (lines 69-73): `spec.selector` when it is a mapping,
else `None`. -/
def selector_of (obj : PVal) : Except String PVal := do
  let spec ← obj.get "spec" (.pdict [])
  let sel ← spec.get "selector" .pnone
  pure (match sel with | .pdict es => .pdict es | _ => .pnone)

-- -------- index_resources (source lines 126-145) --------

/-- Python dict assignment `d[k] = v`: replaces in place when the key is
present, appends otherwise (preserving insertion order). -/
def dinsert : List (String × PVal) → String → PVal → List (String × PVal)
  | [], k, v => [(k, v)]
  | (k', v') :: rest, k, v =>
    if k' == k then (k', v) :: rest else (k', v') :: dinsert rest k v

/-- `by_kind_ns_name[kind][ns][name] = d` on the defaultdict of
defaultdicts of dicts.  The inner values are mappings by construction; the
fallback arms are unreachable on indexes the script builds. -/
def setNested3 (byv : List (String × PVal)) (kind ns name : String) (d : PVal) :
    List (String × PVal) :=
  let kindMap := match dictLookup byv kind with | some (.pdict x) => x | _ => []
  let nsMap := match dictLookup kindMap ns with | some (.pdict x) => x | _ => []
  dinsert byv kind (.pdict (dinsert kindMap ns (.pdict (dinsert nsMap name d))))

/-- The indexing loop of `index_resources` (lines 131-135).  The local
`workloads` set computed there is neither returned nor read anywhere, so it
is not modelled. -/
def indexDocs : List PVal → List (String × PVal) → Except String (List (String × PVal))
  | [], acc => .ok acc
  | d :: rest, acc => do
    let (kind, ns, name) ← metaOf d
    indexDocs rest (setNested3 acc (pyStr kind) (pyStr ns) (pyStr name) d)

/-- Innermost loop of the `pod_templates` construction (lines 139-143):
for every resource whose spec contains a `"template"` key, record the
template labels under `key(kind, ns, name)`. -/
def ptOfNames (kind ns : String) :
    List (String × PVal) → List (String × PVal) → Except String (List (String × PVal))
  | [], acc => .ok acc
  | (name, obj) :: rest, acc => do
    let spec ← obj.get "spec" (.pdict [])
    let c ← pyIn (.pstr "template") spec
    if c then do
      let lbls ← labels_of_template obj
      ptOfNames kind ns rest (dinsert acc (pkey kind ns name) lbls)
    else ptOfNames kind ns rest acc

/-- Middle loop of the `pod_templates` construction (per namespace). -/
def ptOfNs (kind : String) :
    List (String × PVal) → List (String × PVal) → Except String (List (String × PVal))
  | [], acc => .ok acc
  | (ns, nameMap) :: rest, acc => do
    let names ← nameMap.items
    let acc' ← ptOfNames kind ns names acc
    ptOfNs kind rest acc'

/-- Outer loop of the `pod_templates` construction (per kind). -/
def ptOfKinds :
    List (String × PVal) → List (String × PVal) → Except String (List (String × PVal))
  | [], acc => .ok acc
  | (kind, nsMap) :: rest, acc => do
    let nss ← nsMap.items
    let acc' ← ptOfNs kind nss acc
    ptOfKinds rest acc'

/-- `index_resources(docs)` (lines 126-145): the kind/namespace/name index
together with the pod-template label index. -/
def index_resources (docs : List PVal) : Except String (PVal × List (String × PVal)) := do
  let byv ← indexDocs docs []
  let pts ← ptOfKinds byv []
  pure (.pdict byv, pts)

-- -------- rels_from_ingress (source lines 149-170) --------

/-- Inner path loop of `rels_from_ingress` (lines 159-162): collect truthy
`backend.service.name` values. -/
def backendsOfPaths : List PVal → List PVal → Except String (List PVal)
  | [], acc => .ok acc
  | p :: rest, acc => do
    let b ← (pyOr p (.pdict [])).get "backend" .pnone
    let s ← (pyOr b (.pdict [])).get "service" .pnone
    let svc ← (pyOr s (.pdict [])).get "name" .pnone
    backendsOfPaths rest (if svc.truthy then acc ++ [svc] else acc)

/-- Rule loop of `rels_from_ingress` (lines 157-162). -/
def backendsOfRules : List PVal → List PVal → Except String (List PVal)
  | [], acc => .ok acc
  | r :: rest, acc => do
    let http ← (pyOr r (.pdict [])).get "http" .pnone
    let paths0 ← (pyOr http (.pdict [])).get "paths" .pnone
    let paths ← (pyOr paths0 (.plist [])).iter
    let acc' ← backendsOfPaths paths acc
    backendsOfRules rest acc'

/-- Backend service names referenced by one Ingress (lines 153-166),
in append order: path backends first, then any truthy default backend. -/
def ingress_backends (ing : PVal) : Except String (List PVal) := do
  let spec0 ← ing.get "spec" (.pdict [])
  let rules0 ← (pyOr spec0 (.pdict [])).get "rules" (.plist [])
  let spec1 ← ing.get "spec" (.pdict [])
  let default_backend ← (pyOr spec1 (.pdict [])).get "defaultBackend" (.pdict [])
  let rules ← (pyOr rules0 (.plist [])).iter
  let bs ← backendsOfRules rules []
  if default_backend.truthy then do
    let s ← default_backend.get "service" .pnone
    let svc ← (pyOr s (.pdict [])).get "name" .pnone
    pure (if svc.truthy then bs ++ [svc] else bs)
  else pure bs

/-- Helper for `pySet`: drop values already seen, keep first occurrences. -/
def pySetAux {α : Type} [BEq α] (seen : List α) : List α → List α
  | [] => []
  | x :: xs => if seen.contains x then pySetAux seen xs else x :: pySetAux (x :: seen) xs

/-- The deduplication performed by `set(backends)` on line 167.  CPython's
set iteration order is unspecified; the model keeps the first occurrence of
each value. -/
def pySet {α : Type} [BEq α] : List α → List α :=
  pySetAux []

/-- An edge: (source key, destination key, relationship label). -/
abbrev Edge := String × String × String

/-- Edges of one Ingress (lines 152-169): one `"routes to"` edge per
element of `set(backends)`. -/
def ingress_edges (ns name : String) (ing : PVal) : Except String (List Edge) := do
  let bs ← ingress_backends ing
  pure ((pySet bs).map (fun svc =>
    (pkey "Ingress" ns name, pkey "Service" ns (pyStr svc), "routes to")))

/-- Loop of `rels_from_ingress` over the Ingresses of one namespace. -/
def ingressLoop (ns : String) : List (String × PVal) → Except String (List Edge)
  | [] => .ok []
  | (name, ing) :: rest => do
    let es ← ingress_edges ns name ing
    let rest' ← ingressLoop ns rest
    pure (es ++ rest')

/-- `rels_from_ingress(by, ns)` (lines 149-170). -/
def rels_from_ingress (byv : PVal) (ns : String) : Except String (List Edge) := do
  let kindMap ← byv.get "Ingress" (.pdict [])
  let nsMap ← kindMap.get ns (.pdict [])
  let ings ← nsMap.items
  ingressLoop ns ings

-- -------- rels_service_to_workloads (source lines 172-185) --------

/-- `k.split("|", 2)` helper: split a character list at the first bar. -/
def splitBarOnce : List Char → Option (List Char × List Char)
  | [] => none
  | c :: rest =>
    if c == '|' then some ([], rest)
    else match splitBarOnce rest with
      | some (a, b) => some (c :: a, b)
      | none => none

/-- `k_kind, k_ns, k_name = k.split("|", 2)` (lines 179, 284, 297): at most
two splits, `ValueError` when the string has fewer than three parts. -/
def split3 (s : String) : Except String (String × String × String) :=
  match splitBarOnce s.toList with
  | none => .error "ValueError"
  | some (a, r1) =>
    match splitBarOnce r1 with
    | none => .error "ValueError"
    | some (b, r2) => .ok (String.mk a, String.mk b, String.mk r2)

/-- Template loop of `rels_service_to_workloads` (lines 178-184): test the
service selector (wrapped as `{"matchLabels": sel}`) against every pod
template of the same namespace. -/
def svcTemplLoop (ns svcname : String) (sel : PVal) :
    List (String × PVal) → Except String (List Edge)
  | [] => .ok []
  | (k, labels) :: rest => do
    let kk ← split3 k
    if kk.2.1 != ns then svcTemplLoop ns svcname sel rest
    else do
      let m ← match_selector labels (.pdict [("matchLabels", sel)])
      let es ← svcTemplLoop ns svcname sel rest
      pure (if m then (pkey "Service" ns svcname, pkey kk.1 ns kk.2.2, "selects") :: es else es)

/-- Service loop of `rels_service_to_workloads` (lines 174-184): services
with a falsy `spec.selector` are skipped. -/
def svcLoop (ns : String) (pts : List (String × PVal)) :
    List (String × PVal) → Except String (List Edge)
  | [] => .ok []
  | (name, svc) :: rest => do
    let spec ← svc.get "spec" (.pdict [])
    let sel0 ← spec.get "selector" .pnone
    let sel := pyOr sel0 (.pdict [])
    if !sel.truthy then svcLoop ns pts rest
    else do
      let es ← svcTemplLoop ns name sel pts
      let rest' ← svcLoop ns pts rest
      pure (es ++ rest')

/-- `rels_service_to_workloads(by, ns, pod_templates)` (lines 172-185). -/
def rels_service_to_workloads (byv : PVal) (ns : String) (pts : List (String × PVal)) :
    Except String (List Edge) := do
  let kindMap ← byv.get "Service" (.pdict [])
  let nsMap ← kindMap.get ns (.pdict [])
  let svcs ← nsMap.items
  svcLoop ns pts svcs

-- -------- rels_hpa (source lines 187-195) --------

/-- Loop body of `rels_hpa`. -/
def hpaLoop (ns : String) : List (String × PVal) → Except String (List Edge)
  | [] => .ok []
  | (name, hpa) :: rest => do
    let spec0 ← hpa.get "spec" (.pdict [])
    let ref0 ← (pyOr spec0 (.pdict [])).get "scaleTargetRef" (.pdict [])
    let ref := pyOr ref0 (.pdict [])
    let tk ← ref.get "kind" .pnone
    let tn ← ref.get "name" .pnone
    let rest' ← hpaLoop ns rest
    pure (if tk.truthy && tn.truthy then
      (pkey "HorizontalPodAutoscaler" ns name, pkey (pyStr tk) ns (pyStr tn), "scales") :: rest'
    else rest')

/-- `rels_hpa(by, ns)` (lines 187-195). -/
def rels_hpa (byv : PVal) (ns : String) : Except String (List Edge) := do
  let kindMap ← byv.get "HorizontalPodAutoscaler" (.pdict [])
  let nsMap ← kindMap.get ns (.pdict [])
  let hpas ← nsMap.items
  hpaLoop ns hpas

-- -------- rels_volumes_env (source lines 197-239) --------

/-- Pod spec of a workload (line 201): one template level for ordinary
workloads, an extra `jobTemplate` level for CronJobs. -/
def podspecOf (kind : String) (wl : PVal) : Except String PVal :=
  if kind != "CronJob" then do
    let spec0 ← wl.get "spec" (.pdict [])
    let tpl0 ← (pyOr spec0 (.pdict [])).get "template" (.pdict [])
    (pyOr tpl0 (.pdict [])).get "spec" (.pdict [])
  else do
    let spec0 ← wl.get "spec" (.pdict [])
    let jt0 ← (pyOr spec0 (.pdict [])).get "jobTemplate" (.pdict [])
    let s2 ← (pyOr jt0 (.pdict [])).get "spec" (.pdict [])
    let t2 ← s2.get "template" (.pdict [])
    t2.get "spec" (.pdict [])

/-- Volume loop of `rels_volumes_env` (lines 205-217). -/
def volEdges (kind ns name : String) : List PVal → Except String (List Edge)
  | [] => .ok []
  | vol :: rest => do
    let c1 ← pyIn (.pstr "configMap") vol
    let e1 ← if c1 then do
        let cm ← vol.item "configMap"
        let cmn ← (pyOr cm (.pdict [])).get "name" .pnone
        pure (if cmn.truthy then
          [(pkey kind ns name, pkey "ConfigMap" ns (pyStr cmn), "mounts")] else [])
      else pure ([] : List Edge)
    let c2 ← pyIn (.pstr "secret") vol
    let e2 ← if c2 then do
        let sv ← vol.item "secret"
        let sn ← (pyOr sv (.pdict [])).get "secretName" .pnone
        pure (if sn.truthy then
          [(pkey kind ns name, pkey "Secret" ns (pyStr sn), "mounts")] else [])
      else pure ([] : List Edge)
    let c3 ← pyIn (.pstr "persistentVolumeClaim") vol
    let e3 ← if c3 then do
        let pv ← vol.item "persistentVolumeClaim"
        let pn ← (pyOr pv (.pdict [])).get "claimName" .pnone
        pure (if pn.truthy then
          [(pkey kind ns name, pkey "PersistentVolumeClaim" ns (pyStr pn), "uses")] else [])
      else pure ([] : List Edge)
    let rest' ← volEdges kind ns name rest
    pure (e1 ++ e2 ++ e3 ++ rest')

/-- Environment-variable loop of `rels_volumes_env` (lines 220-229). -/
def envEdges (kind ns name : String) : List PVal → Except String (List Edge)
  | [] => .ok []
  | env :: rest => do
    let vf0 ← env.get "valueFrom" .pnone
    let vf := pyOr vf0 (.pdict [])
    let c1 ← pyIn (.pstr "configMapKeyRef") vf
    let e1 ← if c1 then do
        let r ← vf.item "configMapKeyRef"
        let cmn ← r.get "name" .pnone
        pure (if cmn.truthy then
          [(pkey kind ns name, pkey "ConfigMap" ns (pyStr cmn), "reads")] else [])
      else pure ([] : List Edge)
    let c2 ← pyIn (.pstr "secretKeyRef") vf
    let e2 ← if c2 then do
        let r ← vf.item "secretKeyRef"
        let sn ← r.get "name" .pnone
        pure (if sn.truthy then
          [(pkey kind ns name, pkey "Secret" ns (pyStr sn), "reads")] else [])
      else pure ([] : List Edge)
    let rest' ← envEdges kind ns name rest
    pure (e1 ++ e2 ++ rest')

/-- `envFrom` loop of `rels_volumes_env` (lines 230-234); the source tests
`eff["..."].get("name")` and then re-subscripts `eff['...']['name']` when
emitting the edge. -/
def envFromEdges (kind ns name : String) : List PVal → Except String (List Edge)
  | [] => .ok []
  | eff :: rest => do
    let c1 ← pyIn (.pstr "configMapRef") eff
    let e1 ← if c1 then do
        let r ← eff.item "configMapRef"
        let n ← r.get "name" .pnone
        if n.truthy then do
          let r2 ← eff.item "configMapRef"
          let n2 ← r2.item "name"
          pure [(pkey kind ns name, pkey "ConfigMap" ns (pyStr n2), "reads")]
        else pure ([] : List Edge)
      else pure ([] : List Edge)
    let c2 ← pyIn (.pstr "secretRef") eff
    let e2 ← if c2 then do
        let r ← eff.item "secretRef"
        let n ← r.get "name" .pnone
        if n.truthy then do
          let r2 ← eff.item "secretRef"
          let n2 ← r2.item "name"
          pure [(pkey kind ns name, pkey "Secret" ns (pyStr n2), "reads")]
        else pure ([] : List Edge)
      else pure ([] : List Edge)
    let rest' ← envFromEdges kind ns name rest
    pure (e1 ++ e2 ++ rest')

/-- Container loop of `rels_volumes_env` (lines 219-234). -/
def containerEdges (kind ns name : String) : List PVal → Except String (List Edge)
  | [] => .ok []
  | c :: rest => do
    let envs0 ← c.get "env" (.plist [])
    let envs ← (pyOr envs0 (.plist [])).iter
    let e1 ← envEdges kind ns name envs
    let effs0 ← c.get "envFrom" (.plist [])
    let effs ← (pyOr effs0 (.plist [])).iter
    let e2 ← envFromEdges kind ns name effs
    let rest' ← containerEdges kind ns name rest
    pure (e1 ++ e2 ++ rest')

/-- Edges of one workload in `rels_volumes_env` (lines 201-238): volume
mounts, env/envFrom reads, then the `serviceAccountName` edge. -/
def workloadEdges (kind ns name : String) (wl : PVal) : Except String (List Edge) := do
  let ps ← podspecOf kind wl
  if !ps.truthy then pure [] else do
  let vols0 ← ps.get "volumes" (.plist [])
  let vols ← (pyOr vols0 (.plist [])).iter
  let e1 ← volEdges kind ns name vols
  let cs0 ← ps.get "containers" (.plist [])
  let cs ← (pyOr cs0 (.plist [])).iter
  let e2 ← containerEdges kind ns name cs
  let sa ← ps.get "serviceAccountName" .pnone
  pure (e1 ++ e2 ++
    (if sa.truthy then [(pkey kind ns name, pkey "ServiceAccount" ns (pyStr sa), "runs as")] else []))

/-- Name loop of `rels_volumes_env` (line 200). -/
def wlNameLoop (kind ns : String) : List (String × PVal) → Except String (List Edge)
  | [] => .ok []
  | (name, wl) :: rest => do
    let es ← workloadEdges kind ns name wl
    let rest' ← wlNameLoop kind ns rest
    pure (es ++ rest')

/-- Kind loop of `rels_volumes_env` (line 199). -/
def wlKindLoop (byv : PVal) (ns : String) : List String → Except String (List Edge)
  | [] => .ok []
  | kind :: rest => do
    let kindMap ← byv.get kind (.pdict [])
    let nsMap ← kindMap.get ns (.pdict [])
    let wls ← nsMap.items
    let es ← wlNameLoop kind ns wls
    let rest' ← wlKindLoop byv ns rest
    pure (es ++ rest')

/-- `rels_volumes_env(by, ns)` (lines 197-239). -/
def rels_volumes_env (byv : PVal) (ns : String) : Except String (List Edge) :=
  wlKindLoop byv ns ["Deployment", "StatefulSet", "DaemonSet", "Job", "CronJob"]

-- -------- rels_sa_rbac (source lines 241-268) --------

/-- One subject of a binding (lines 251-255 and 263-267): a ServiceAccount
subject yields a `"to"` edge; its namespace defaults to the current
namespace argument `ns` when the subject has no `namespace` field. -/
def sa_subject_edges (fromId ns : String) (s : PVal) : Except String (List Edge) := do
  let k ← s.get "kind" .pnone
  if k.isStrEq "ServiceAccount" then do
    let sa_ns ← s.get "namespace" (.pstr ns)
    let sa_name ← s.get "name" .pnone
    pure (if sa_name.truthy then
      [(fromId, pkey "ServiceAccount" (pyStr sa_ns) (pyStr sa_name), "to")] else [])
  else pure []

/-- Subject loop shared by the RoleBinding and ClusterRoleBinding parts of
`rels_sa_rbac`. -/
def subjectsLoop (fromId ns : String) : List PVal → Except String (List Edge)
  | [] => .ok []
  | s :: rest => do
    let e ← sa_subject_edges fromId ns s
    let rest' ← subjectsLoop fromId ns rest
    pure (e ++ rest')

/-- RoleBinding loop of `rels_sa_rbac` (lines 244-255): the `"binds"` edge
targets a Role in the binding's namespace or anything else in the cluster
scope, then the subjects are scanned. -/
def rbLoop (ns : String) : List (String × PVal) → Except String (List Edge)
  | [] => .ok []
  | (name, rb) :: rest => do
    let rr0 ← rb.get "roleRef" .pnone
    let role_ref := pyOr rr0 (.pdict [])
    let role_kind ← role_ref.get "kind" .pnone
    let role_name ← role_ref.get "name" .pnone
    let e1 := if role_kind.truthy && role_name.truthy then
        [(pkey "RoleBinding" ns name,
          if role_kind.isStrEq "Role" then pkey (pyStr role_kind) ns (pyStr role_name)
          else pkey (pyStr role_kind) "cluster" (pyStr role_name), "binds")]
      else []
    let subs0 ← rb.get "subjects" (.plist [])
    let subs ← (pyOr subs0 (.plist [])).iter
    let e2 ← subjectsLoop (pkey "RoleBinding" ns name) ns subs
    let rest' ← rbLoop ns rest
    pure (e1 ++ e2 ++ rest')

/-- ClusterRoleBinding loop of `rels_sa_rbac` (lines 257-267).  Note the
loop runs inside the per-namespace extractor and iterates all
ClusterRoleBindings indexed under the namespace key `"cluster"`; subject
namespaces still default to the current `ns` argument. -/
def crbLoop (ns : String) : List (String × PVal) → Except String (List Edge)
  | [] => .ok []
  | (name, crb) :: rest => do
    let rr0 ← crb.get "roleRef" .pnone
    let role_ref := pyOr rr0 (.pdict [])
    let role_name ← role_ref.get "name" .pnone
    let e1 := if role_name.truthy then
        [(pkey "ClusterRoleBinding" "cluster" name,
          pkey "ClusterRole" "cluster" (pyStr role_name), "binds")]
      else []
    let subs0 ← crb.get "subjects" (.plist [])
    let subs ← (pyOr subs0 (.plist [])).iter
    let e2 ← subjectsLoop (pkey "ClusterRoleBinding" "cluster" name) ns subs
    let rest' ← crbLoop ns rest
    pure (e1 ++ e2 ++ rest')

/-- `rels_sa_rbac(by, ns)` (lines 241-268). -/
def rels_sa_rbac (byv : PVal) (ns : String) : Except String (List Edge) := do
  let rbKind ← byv.get "RoleBinding" (.pdict [])
  let rbNs ← rbKind.get ns (.pdict [])
  let rbs ← rbNs.items
  let e1 ← rbLoop ns rbs
  let crbKind ← byv.get "ClusterRoleBinding" (.pdict [])
  let crbCl ← crbKind.get "cluster" (.pdict [])
  let crbs ← crbCl.items
  let e2 ← crbLoop ns crbs
  pure (e1 ++ e2)

-- -------- rels_pvc_pv (source lines 270-277) --------

/-- Edges of one PersistentVolumeClaim (lines 274-276): a truthy
`spec.volumeName` yields one `"bound to"` edge whose target lives in the
`"cluster"` scope. -/
def pvc_edges (ns name : String) (pvc : PVal) : Except String (List Edge) := do
  let spec0 ← pvc.get "spec" .pnone
  let vol ← (pyOr spec0 (.pdict [])).get "volumeName" .pnone
  pure (if vol.truthy then
    [(pkey "PersistentVolumeClaim" ns name, pkey "PersistentVolume" "cluster" (pyStr vol),
      "bound to")]
  else [])

/-- Name loop of `rels_pvc_pv`. -/
def pvcNameLoop (ns : String) : List (String × PVal) → Except String (List Edge)
  | [] => .ok []
  | (name, pvc) :: rest => do
    let e ← pvc_edges ns name pvc
    let rest' ← pvcNameLoop ns rest
    pure (e ++ rest')

/-- Namespace loop of `rels_pvc_pv` (line 272): this extractor iterates all
namespaces itself and is invoked once. -/
def pvcNsLoop : List (String × PVal) → Except String (List Edge)
  | [] => .ok []
  | (ns, nameMap) :: rest => do
    let names ← nameMap.items
    let e ← pvcNameLoop ns names
    let rest' ← pvcNsLoop rest
    pure (e ++ rest')

/-- `rels_pvc_pv(by)` (lines 270-277). -/
def rels_pvc_pv (byv : PVal) : Except String (List Edge) := do
  let kindMap ← byv.get "PersistentVolumeClaim" (.pdict [])
  let nss ← kindMap.items
  pvcNsLoop nss

-- -------- rels_networkpolicy (source lines 279-290) --------

/-- Template loop of `rels_networkpolicy` (lines 283-289): the pod selector
is passed to `match_selector` directly (equality and expression terms). -/
def npTemplLoop (ns npname : String) (sel : PVal) :
    List (String × PVal) → Except String (List Edge)
  | [] => .ok []
  | (k, labels) :: rest => do
    let kk ← split3 k
    if kk.2.1 != ns then npTemplLoop ns npname sel rest
    else do
      let m ← match_selector labels sel
      let es ← npTemplLoop ns npname sel rest
      pure (if m then (pkey "NetworkPolicy" ns npname, pkey kk.1 ns kk.2.2, "applies") :: es else es)

/-- NetworkPolicy loop of `rels_networkpolicy` (lines 281-289). -/
def npLoop (ns : String) (pts : List (String × PVal)) :
    List (String × PVal) → Except String (List Edge)
  | [] => .ok []
  | (name, np) :: rest => do
    let spec0 ← np.get "spec" .pnone
    let sel0 ← (pyOr spec0 (.pdict [])).get "podSelector" .pnone
    let sel := pyOr sel0 (.pdict [])
    let es ← npTemplLoop ns name sel pts
    let rest' ← npLoop ns pts rest
    pure (es ++ rest')

/-- `rels_networkpolicy(by, ns, pod_templates)` (lines 279-290). -/
def rels_networkpolicy (byv : PVal) (ns : String) (pts : List (String × PVal)) :
    Except String (List Edge) := do
  let kindMap ← byv.get "NetworkPolicy" (.pdict [])
  let nsMap ← kindMap.get ns (.pdict [])
  let nps ← nsMap.items
  npLoop ns pts nps

-- -------- rels_pdb (source lines 292-303) --------

/-- Template loop of `rels_pdb` (lines 296-302). -/
def pdbTemplLoop (ns pdbname : String) (sel : PVal) :
    List (String × PVal) → Except String (List Edge)
  | [] => .ok []
  | (k, labels) :: rest => do
    let kk ← split3 k
    if kk.2.1 != ns then pdbTemplLoop ns pdbname sel rest
    else do
      let m ← match_selector labels sel
      let es ← pdbTemplLoop ns pdbname sel rest
      pure (if m then
        (pkey "PodDisruptionBudget" ns pdbname, pkey kk.1 ns kk.2.2, "protects") :: es else es)

/-- PodDisruptionBudget loop of `rels_pdb` (lines 294-302), using
`selector_of` (which checks that the selector is a mapping). -/
def pdbLoop (ns : String) (pts : List (String × PVal)) :
    List (String × PVal) → Except String (List Edge)
  | [] => .ok []
  | (name, pdb) :: rest => do
    let sel0 ← selector_of pdb
    let sel := pyOr sel0 (.pdict [])
    let es ← pdbTemplLoop ns name sel pts
    let rest' ← pdbLoop ns pts rest
    pure (es ++ rest')

/-- `rels_pdb(by, ns, pod_templates)` (lines 292-303). -/
def rels_pdb (byv : PVal) (ns : String) (pts : List (String × PVal)) :
    Except String (List Edge) := do
  let kindMap ← byv.get "PodDisruptionBudget" (.pdict [])
  let nsMap ← kindMap.get ns (.pdict [])
  let pdbs ← nsMap.items
  pdbLoop ns pts pdbs

-- -------- the assembler part of main (source lines 371-387) --------

/-- Namespace keys of every indexed kind (lines 375-378). -/
def nsKeysOfKinds : List (String × PVal) → Except String (List String)
  | [] => .ok []
  | (_, nsMap) :: rest => do
    let es ← nsMap.items
    let rest' ← nsKeysOfKinds rest
    pure (es.map (fun p => p.1) ++ rest')

/-- Code-point comparison of character lists, modelling Python string
ordering as used by `sorted`. -/
def charListLe : List Char → List Char → Bool
  | [], _ => true
  | _ :: _, [] => false
  | c :: cs, d :: ds =>
    if c.toNat < d.toNat then true
    else if d.toNat < c.toNat then false
    else charListLe cs ds

/-- Python `a <= b` on strings. -/
def strLe (a b : String) : Bool := charListLe a.toList b.toList

/-- Insertion into a sorted list of strings. -/
def insertSorted (x : String) : List String → List String
  | [] => [x]
  | y :: ys => if strLe x y then x :: y :: ys else y :: insertSorted x ys

/-- `sorted(...)` on a list of strings (line 379). -/
def sortStr : List String → List String
  | [] => []
  | x :: xs => insertSorted x (sortStr xs)

/-- Body of the per-namespace loop of `main` (lines 380-386): all seven
namespace-scoped extractors, concatenated in source order. -/
def edges_for_ns (byv : PVal) (pts : List (String × PVal)) (ns : String) :
    Except String (List Edge) := do
  let e1 ← rels_from_ingress byv ns
  let e2 ← rels_service_to_workloads byv ns pts
  let e3 ← rels_hpa byv ns
  let e4 ← rels_volumes_env byv ns
  let e5 ← rels_sa_rbac byv ns
  let e6 ← rels_networkpolicy byv ns pts
  let e7 ← rels_pdb byv ns pts
  pure (e1 ++ e2 ++ e3 ++ e4 ++ e5 ++ e6 ++ e7)

/-- The namespace loop of `main` (line 379). -/
def nsLoop (byv : PVal) (pts : List (String × PVal)) : List String → Except String (List Edge)
  | [] => .ok []
  | ns :: rest => do
    let e ← edges_for_ns byv pts ns
    let rest' ← nsLoop byv pts rest
    pure (e ++ rest')

/-- Edge assembly of `main` (lines 371-387): index the documents, run every
namespace-scoped extractor once per sorted non-cluster namespace, then
append `rels_pvc_pv` once. -/
def build_edges (docs : List PVal) : Except String (List Edge) := do
  let ix ← index_resources docs
  let byEntries ← ix.1.items
  let allNs ← nsKeysOfKinds byEntries
  let nss := sortStr ((pySet allNs).filter (fun n => n != "cluster"))
  let e1 ← nsLoop ix.1 ix.2 nss
  let e2 ← rels_pvc_pv ix.1
  pure (e1 ++ e2)

-- -------- Typed view of match_selector --------

/-- One `matchExpressions` term as `match_selector` reads it (lines 85-87):
an optional `key`, an optional `operator` string and a `values` list
(defaulting to the empty list when absent). -/
structure MatchExpr where
  key : Option String
  operator : Option String
  values : List String
deriving DecidableEq, Repr

/-- A well-typed selector mapping: each of the two keys read by
`match_selector` (lines 79 and 83) is either absent or bound to a
well-typed value.  `matchLabels := some []` is a present-but-empty mapping,
distinct from an absent one — exactly as for a Python dict. -/
structure Selector where
  matchLabels : Option (List (String × String))
  matchExpressions : Option (List MatchExpr)
deriving DecidableEq, Repr

/-- String-valued label lookup (`labels.get(k)` for a well-typed label
mapping). -/
def lookupL : List (String × String) → String → Option String
  | [], _ => none
  | (k, v) :: rest, key => if k == key then some v else lookupL rest key

/-- `key in labels` for an optional key: an absent (`None`) key is never a
member. -/
def hasKeyT (L : List (String × String)) : Option String → Bool
  | some k => (lookupL L k).isSome
  | none => false

/-- `lv in values` where `lv` may be `None` (never a member of a string
list). -/
def inValues (lv : Option String) (vs : List String) : Bool :=
  match lv with
  | some v => vs.contains v
  | none => false

/-- Truthiness of a selector mapping: falsy exactly when both keys are
absent (line 76 of the source tests `not selector`). -/
def selTruthy (S : Selector) : Bool := !(S.matchLabels.isNone && S.matchExpressions.isNone)

/-- One expression term of `match_selector` (lines 84-97) on well-typed
input: each recognized operator contributes its constraint, any other
operator (absent, `Gt`, `Lt`, misspelled) contributes nothing. -/
def exprOk (L : List (String × String)) (e : MatchExpr) : Bool :=
  (if e.operator == some "In" then inValues (e.key.bind (lookupL L)) e.values else true) &&
  (if e.operator == some "NotIn" then !(inValues (e.key.bind (lookupL L)) e.values) else true) &&
  (if e.operator == some "Exists" then hasKeyT L e.key else true) &&
  (if e.operator == some "DoesNotExist" then !(hasKeyT L e.key) else true)

/-- The `matchLabels` conjunction of `match_selector` (lines 80-82). -/
def mlOk (L ml : List (String × String)) : Bool :=
  ml.all (fun p => lookupL L p.1 == some p.2)

/-- `match_selector` restricted to well-typed labels and selectors; the
agreement with the value-level translation is `match_selector_agrees`. -/
def matchSelectorT (L : List (String × String)) (S : Selector) : Bool :=
  selTruthy S && mlOk L (S.matchLabels.getD []) && (S.matchExpressions.getD []).all (exprOk L)

/-- Add one equality term to a selector (the `matchLabels` key becomes
present if it was not). -/
def extendEq (S : Selector) (p : String × String) : Selector :=
  { matchLabels := some (S.matchLabels.getD [] ++ [p]), matchExpressions := S.matchExpressions }

/-- Add one expression term to a selector. -/
def extendExpr (S : Selector) (e : MatchExpr) : Selector :=
  { matchLabels := S.matchLabels, matchExpressions := some (S.matchExpressions.getD [] ++ [e]) }

/-- The four operator strings `match_selector` recognizes. -/
def recognizedOp (o : Option String) : Bool :=
  o == some "In" || o == some "NotIn" || o == some "Exists" || o == some "DoesNotExist"

/-- Drop every expression term with an unrecognized operator; the
`matchExpressions` key stays present when it was. -/
def removeUnrec (S : Selector) : Selector :=
  { matchLabels := S.matchLabels,
    matchExpressions := S.matchExpressions.map (fun es => es.filter (fun e => recognizedOp e.operator)) }

/-- A well-typed label mapping as a Python value. -/
def embedLabels (L : List (String × String)) : PVal :=
  .pdict (L.map (fun p => (p.1, PVal.pstr p.2)))

/-- A well-typed expression term as a Python value. -/
def embedExpr (e : MatchExpr) : PVal :=
  .pdict ((match e.key with | some k => [("key", PVal.pstr k)] | none => []) ++
          (match e.operator with | some o => [("operator", PVal.pstr o)] | none => []) ++
          [("values", PVal.plist (e.values.map PVal.pstr))])

/-- A well-typed selector as a Python value. -/
def embedSelector (S : Selector) : PVal :=
  .pdict ((match S.matchLabels with | some l => [("matchLabels", embedLabels l)] | none => []) ++
          (match S.matchExpressions with
           | some es => [("matchExpressions", PVal.plist (es.map embedExpr))] | none => []))

/-- The `"routes to"` edge of `rels_from_ingress` for one backend name. -/
def routesEdge (ns iname b : String) : Edge :=
  (pkey "Ingress" ns iname, pkey "Service" ns b, "routes to")

-- -------- Concrete documents used by the claim theorems --------

/-- A Deployment with a pod template labelled `app=web` in namespace
`ns1`. -/
def C2deploy : PVal := .pdict [
  ("kind", .pstr "Deployment"),
  ("metadata", .pdict [("name", .pstr "web"), ("namespace", .pstr "ns1")]),
  ("spec", .pdict [("template", .pdict [("metadata", .pdict [("labels",
    .pdict [("app", .pstr "web")])])])])]

/-- A Service in `ns1` whose `spec.selector` is (wrongly) a string. -/
def C2svc : PVal := .pdict [
  ("kind", .pstr "Service"),
  ("metadata", .pdict [("name", .pstr "websvc"), ("namespace", .pstr "ns1")]),
  ("spec", .pdict [("selector", .pstr "app=web")])]

/-- A CronJob whose job template's template carries labels
(`spec.jobTemplate.spec.template.metadata.labels`). -/
def C3cron : PVal := .pdict [
  ("kind", .pstr "CronJob"),
  ("metadata", .pdict [("name", .pstr "cj")]),
  ("spec", .pdict [("jobTemplate", .pdict [("spec", .pdict [("template",
    .pdict [("metadata", .pdict [("labels", .pdict [("app", .pstr "batch")])])])])])])]

/-- A ClusterRole without a `metadata.namespace` field. -/
def C4cr : PVal := .pdict [
  ("kind", .pstr "ClusterRole"),
  ("metadata", .pdict [("name", .pstr "admin")])]

/-- A ClusterRole carrying an explicit (unusual) namespace field. -/
def C4crNs : PVal := .pdict [
  ("kind", .pstr "ClusterRole"),
  ("metadata", .pdict [("name", .pstr "edit"), ("namespace", .pstr "ns1")])]

/-- A ConfigMap in namespace `a` (creates the namespace, triggers no
extractor). -/
def C5cmA : PVal := .pdict [
  ("kind", .pstr "ConfigMap"),
  ("metadata", .pdict [("name", .pstr "c1"), ("namespace", .pstr "a")])]

/-- A ConfigMap in namespace `b`. -/
def C5cmB : PVal := .pdict [
  ("kind", .pstr "ConfigMap"),
  ("metadata", .pdict [("name", .pstr "c2"), ("namespace", .pstr "b")])]

/-- A ClusterRoleBinding indexed under the `"cluster"` namespace key (the
only way a document reaches that key, since `meta` never rewrites the
namespace), binding ClusterRole `r`. -/
def C5crb : PVal := .pdict [
  ("kind", .pstr "ClusterRoleBinding"),
  ("metadata", .pdict [("name", .pstr "crb1"), ("namespace", .pstr "cluster")]),
  ("roleRef", .pdict [("kind", .pstr "ClusterRole"), ("name", .pstr "r")])]

/-- Document set with two namespaces and one ClusterRoleBinding. -/
def C5docs : List PVal := [C5cmA, C5cmB, C5crb]

/-- The `"binds"` edge of `C5crb`. -/
def C5binds : Edge := ("ClusterRoleBinding|cluster|crb1", "ClusterRole|cluster|r", "binds")

/-- The index entries `index_resources` builds from `C5docs`. -/
def C5byEntries : List (String × PVal) := [
  ("ConfigMap", .pdict [("a", .pdict [("c1", C5cmA)]), ("b", .pdict [("c2", C5cmB)])]),
  ("ClusterRoleBinding", .pdict [("cluster", .pdict [("crb1", C5crb)])])]

/-- An Ingress with two path rules both referencing service `a`. -/
def C6ing : PVal := .pdict [
  ("kind", .pstr "Ingress"),
  ("metadata", .pdict [("name", .pstr "ing1"), ("namespace", .pstr "ns1")]),
  ("spec", .pdict [("rules", .plist [
    .pdict [("http", .pdict [("paths", .plist [
      .pdict [("backend", .pdict [("service", .pdict [("name", .pstr "a")])])]])])],
    .pdict [("http", .pdict [("paths", .plist [
      .pdict [("backend", .pdict [("service", .pdict [("name", .pstr "a")])])]])])]])])]

/-- A PersistentVolumeClaim `data` in namespace `db` bound to `pv-001`. -/
def C9pvc : PVal := .pdict [
  ("kind", .pstr "PersistentVolumeClaim"),
  ("metadata", .pdict [("name", .pstr "data"), ("namespace", .pstr "db")]),
  ("spec", .pdict [("volumeName", .pstr "pv-001")])]

-- -------- Supporting lemmas --------

@[simp] theorem exbind_ok {α β : Type} (a : α) (f : α → Except String β) :
    (Except.ok a >>= f : Except String β) = f a := rfl

@[simp] theorem exbind_err {α β : Type} (e : String) (f : α → Except String β) :
    (Except.error e >>= f : Except String β) = Except.error e := rfl

@[simp] theorem expure {α : Type} (a : α) : (pure a : Except String α) = Except.ok a := rfl

@[simp] theorem pveq_pnone_pstr (b : String) : (PVal.pnone == PVal.pstr b) = false := rfl

@[simp] theorem pveq_pstr_pstr (a b : String) : (PVal.pstr a == PVal.pstr b) = (a == b) := rfl

theorem beq_pnone_pstr (b : String) : PVal.beq .pnone (.pstr b) = false := rfl

theorem beq_pstr_pstr (a b : String) : PVal.beq (.pstr a) (.pstr b) = (a == b) := rfl

theorem dictLookup_embedLabels (L : List (String × String)) (k : String) :
    dictLookup (L.map (fun p => (p.1, PVal.pstr p.2))) k = (lookupL L k).map .pstr := by
  induction L with
  | nil => rfl
  | cons a as ih =>
    by_cases h : a.1 == k <;> simp [dictLookup, lookupL, h, ih]

theorem checkML_embed (L ml : List (String × String)) :
    checkML (embedLabels L) (ml.map (fun p => (p.1, PVal.pstr p.2))) = .ok (mlOk L ml) := by
  induction ml with
  | nil => rfl
  | cons a as ih =>
    obtain ⟨k, v⟩ := a
    simp only [List.map_cons, checkML, embedLabels, PVal.get, dictLookup_embedLabels]
    cases h : lookupL L k with
    | none => simp [mlOk, h, beq_pnone_pstr]
    | some x =>
      by_cases hx : x == v
      · have hxv : x = v := by simpa using hx
        subst hxv
        simp [mlOk, h, beq_pstr_pstr, hx]
        simpa [embedLabels, mlOk] using ih
      · simp [mlOk, h, beq_pstr_pstr, hx]

theorem contains_map_pstr_pnone (vs : List String) :
    (vs.map PVal.pstr).contains PVal.pnone = false := by
  induction vs with
  | nil => rfl
  | cons a as ih => simp [List.contains_cons, ih]

theorem contains_map_pstr (vs : List String) (a : String) :
    (vs.map PVal.pstr).contains (PVal.pstr a) = vs.contains a := by
  induction vs with
  | nil => rfl
  | cons b bs ih => rw [List.map_cons, List.contains_cons, List.contains_cons, pveq_pstr_pstr, ih]

theorem get_embed_key (ko oo : Option String) (vs : List String) :
    (embedExpr ⟨ko, oo, vs⟩).get "key" .pnone =
      .ok (match ko with | some k => PVal.pstr k | none => .pnone) := by
  cases ko <;> cases oo <;> simp [embedExpr, PVal.get, dictLookup]

theorem get_embed_op (ko oo : Option String) (vs : List String) :
    (embedExpr ⟨ko, oo, vs⟩).get "operator" .pnone =
      .ok (match oo with | some o => PVal.pstr o | none => .pnone) := by
  cases ko <;> cases oo <;> simp [embedExpr, PVal.get, dictLookup]

theorem get_embed_values (ko oo : Option String) (vs : List String) :
    (embedExpr ⟨ko, oo, vs⟩).get "values" (.plist []) =
      .ok (.plist (vs.map .pstr)) := by
  cases ko <;> cases oo <;> simp [embedExpr, PVal.get, dictLookup]

theorem getp_embed (L : List (String × String)) (ko : Option String) :
    (embedLabels L).getp (match ko with | some k => PVal.pstr k | none => .pnone) .pnone =
      .ok (match ko.bind (lookupL L) with | some v => PVal.pstr v | none => .pnone) := by
  cases ko with
  | none => rfl
  | some k =>
    simp only [embedLabels, PVal.getp, dictLookup_embedLabels, Option.bind]
    cases h : lookupL L k <;> simp [h]

theorem pyIn_values (lvo : Option String) (vs : List String) :
    pyIn (match lvo with | some v => PVal.pstr v | none => .pnone) (.plist (vs.map .pstr)) =
      .ok (inValues lvo vs) := by
  cases lvo <;> simp [pyIn, inValues, contains_map_pstr_pnone, contains_map_pstr]

theorem pyIn_key_labels (L : List (String × String)) (ko : Option String) :
    pyIn (match ko with | some k => PVal.pstr k | none => .pnone) (embedLabels L) =
      .ok (hasKeyT L ko) := by
  cases ko with
  | none => rfl
  | some k => simp [pyIn, embedLabels, hasKeyT, dictLookup_embedLabels]

theorem isStrEq_embed (oo : Option String) (s : String) :
    (match oo with | some o => PVal.pstr o | none => PVal.pnone).isStrEq s = (oo == some s) := by
  cases oo <;> simp [PVal.isStrEq]

theorem checkExpr_embed (L : List (String × String)) (e : MatchExpr) :
    checkExpr (embedLabels L) (embedExpr e) = .ok (exprOk L e) := by
  obtain ⟨ko, oo, vs⟩ := e
  simp only [checkExpr, get_embed_key, get_embed_op, get_embed_values, exbind_ok,
    getp_embed, isStrEq_embed, pyIn_values, pyIn_key_labels]
  cases oo with
  | none => simp [exprOk]
  | some o =>
    by_cases h1 : o = "In"
    · subst h1
      cases hin : inValues (ko.bind (lookupL L)) vs <;> simp [exprOk, hin]
    · by_cases h2 : o = "NotIn"
      · subst h2
        cases hin : inValues (ko.bind (lookupL L)) vs <;> simp [exprOk, hin]
      · by_cases h3 : o = "Exists"
        · subst h3
          cases hk : hasKeyT L ko <;> simp [exprOk, hk]
        · by_cases h4 : o = "DoesNotExist"
          · subst h4
            cases hk : hasKeyT L ko <;> simp [exprOk, hk]
          · simp [exprOk, h1, h2, h3, h4]

theorem checkExprs_embed (L : List (String × String)) (es : List MatchExpr) :
    checkExprs (embedLabels L) (es.map embedExpr) = .ok (es.all (exprOk L)) := by
  induction es with
  | nil => rfl
  | cons e rest ih =>
    simp only [List.map_cons, checkExprs, checkExpr_embed, exbind_ok]
    cases h : exprOk L e <;> simp [h, ih]

theorem items_pyOr_embedLabels (l : List (String × String)) :
    (pyOr (embedLabels l) (.pdict [])).items = .ok (l.map (fun p => (p.1, PVal.pstr p.2))) := by
  cases l <;> rfl

theorem iter_pyOr_embedExprs (es : List MatchExpr) :
    (pyOr (.plist (es.map embedExpr)) (.plist [])).iter = .ok (es.map embedExpr) := by
  cases es <;> rfl

theorem items_pyOr_empty : (pyOr (.pdict []) (.pdict [])).items = .ok [] := rfl

theorem iter_pyOr_empty : (pyOr (.plist []) (.plist [])).iter = .ok [] := rfl

/-- The typed matcher computes exactly what the translated `match_selector`
computes on the corresponding Python values (which is in particular
error-free there). -/
theorem match_selector_agrees (L : List (String × String)) (S : Selector) :
    match_selector (embedLabels L) (embedSelector S) = .ok (matchSelectorT L S) := by
  obtain ⟨ml, me⟩ := S
  cases ml with
  | none =>
    cases me with
    | none => rfl
    | some es =>
      simp [match_selector, embedSelector, PVal.get, dictLookup, items_pyOr_empty,
        iter_pyOr_embedExprs, checkExprs_embed, checkML, matchSelectorT, selTruthy, mlOk,
        PVal.truthy]
  | some l =>
    cases me with
    | none =>
      cases hml : mlOk L l <;>
        simp [match_selector, embedSelector, PVal.get, dictLookup, items_pyOr_embedLabels,
          checkML_embed, iter_pyOr_empty, checkExprs, matchSelectorT, selTruthy, hml,
          PVal.truthy]
    | some es =>
      cases hml : mlOk L l <;>
        simp [match_selector, embedSelector, PVal.get, dictLookup, items_pyOr_embedLabels,
          checkML_embed, iter_pyOr_embedExprs, checkExprs_embed, matchSelectorT, selTruthy,
          hml, PVal.truthy]

theorem exprOk_unrec (L : List (String × String)) (e : MatchExpr)
    (h : recognizedOp e.operator = false) : exprOk L e = true := by
  simp only [recognizedOp, Bool.or_eq_false_iff] at h
  obtain ⟨⟨⟨h1, h2⟩, h3⟩, h4⟩ := h
  simp [exprOk, h1, h2, h3, h4]

theorem all_unrec_or (L : List (String × String)) (es : List MatchExpr) :
    (es.all (fun e => !recognizedOp e.operator || exprOk L e)) = es.all (exprOk L) := by
  induction es with
  | nil => rfl
  | cons e rest ih =>
    simp only [List.all_cons, ih]
    cases hr : recognizedOp e.operator with
    | true => simp
    | false => simp [exprOk_unrec L e hr]

theorem str_append_cancel (p a b : String) (h : p ++ a = p ++ b) : a = b := by
  cases p with | mk pd =>
  cases a with | mk ad =>
  cases b with | mk bd =>
  have hd : pd ++ ad = pd ++ bd := by
    have := congrArg String.data h
    simpa [String.data] using this
  exact congrArg String.mk (List.append_cancel_left hd)

theorem pkey_inj (k n : String) : Function.Injective (pkey k n) := by
  intro a b h
  exact str_append_cancel (k ++ "|" ++ n ++ "|") a b h

theorem pySetAux_map_pstr (ss : List String) :
    ∀ seen : List String, pySetAux (seen.map PVal.pstr) (ss.map PVal.pstr) =
      (pySetAux seen ss).map PVal.pstr := by
  induction ss with
  | nil => intro seen; rfl
  | cons a as ih =>
    intro seen
    simp only [List.map_cons, pySetAux, contains_map_pstr]
    cases h : seen.contains a with
    | true => simp [h, ih seen]
    | false =>
      have hs := ih (a :: seen)
      simp only [List.map_cons] at hs
      simp [h, hs]

theorem count_map_inj {α β : Type} [BEq α] [LawfulBEq α] [BEq β] [LawfulBEq β]
    (f : α → β) (hf : Function.Injective f) (l : List α) (x : α) :
    (l.map f).count (f x) = l.count x := by
  induction l with
  | nil => rfl
  | cons a as ih =>
    rw [List.map_cons, List.count_cons, List.count_cons, ih]
    by_cases hx : x = a
    · subst hx
      simp
    · have h1 : (f a == f x) = false :=
        beq_eq_false_iff_ne.mpr (fun hc => hx (hf hc).symm)
      have h2 : (a == x) = false := beq_eq_false_iff_ne.mpr (fun hc => hx hc.symm)
      rw [h1, h2]

theorem pySetAux_count {α : Type} [BEq α] [LawfulBEq α] (l : List α) :
    ∀ (seen : List α) (x : α),
      (pySetAux seen l).count x = if x ∈ l ∧ ¬ x ∈ seen then 1 else 0 := by
  induction l with
  | nil => intro seen x; simp [pySetAux]
  | cons a as ih =>
    intro seen x
    cases h : seen.contains a with
    | true =>
      have ha : a ∈ seen := by simpa using h
      simp only [pySetAux, h, if_true]
      rw [ih seen]
      by_cases hx : x = a
      · subst hx
        simp [ha]
      · have hc : (x ∈ as ∧ ¬ x ∈ seen) ↔ (x ∈ a :: as ∧ ¬ x ∈ seen) := by
          simp [List.mem_cons, hx]
        rw [if_congr hc rfl rfl]
    | false =>
      have ha : ¬ a ∈ seen := by simpa using h
      simp only [pySetAux, h, Bool.false_eq_true, if_false]
      rw [List.count_cons, ih (a :: seen)]
      by_cases hx : x = a
      · subst hx
        simp [ha, List.mem_cons]
      · have hc : (x ∈ as ∧ ¬ x ∈ a :: seen) ↔ (x ∈ a :: as ∧ ¬ x ∈ seen) := by
          simp only [List.mem_cons, hx]
          tauto
        have hb : (a == x) = false := beq_eq_false_iff_ne.mpr (fun hc2 => hx hc2.symm)
        rw [hb]
        simp only [Bool.false_eq_true, if_false, Nat.add_zero]
        rw [if_congr hc rfl rfl]

theorem pySet_count {α : Type} [BEq α] [LawfulBEq α] (l : List α) (x : α) :
    (pySet l).count x = if x ∈ l then 1 else 0 := by
  rw [pySet, pySetAux_count]
  simp

theorem routesEdge_inj (ns iname : String) : Function.Injective (routesEdge ns iname) := by
  intro a b hab
  have h2 : pkey "Service" ns a = pkey "Service" ns b := congrArg (fun e : Edge => e.2.1) hab
  exact pkey_inj "Service" ns h2

-- -------- Claim theorems --------

/-- C1, counterexample: a selector whose `matchLabels` key is present but
empty (and with no `matchExpressions` key) is a non-empty, truthy mapping,
so `match_selector` does not return false for it: it matches even the
empty label set.  The claim asserts such a selector matches nothing. -/
theorem C1_empty_selector_counterexample :
    match_selector (.pdict []) (.pdict [("matchLabels", .pdict [])]) = .ok true := rfl

/-- C1, amended: `match_selector` returns false exactly for the selectors
that are falsy as values — the mapping with no keys at all (line 76 tests
`not selector`); a selector with a present-but-empty `matchLabels` is
truthy and, having no terms, matches every label set. -/
theorem C1_empty_selector_amended (labels sel : PVal) (h : sel.truthy = false) :
    match_selector labels sel = .ok false := by
  simp [match_selector, h]

/-- C1, witness for the amended theorem at a concrete input. -/
theorem C1_empty_selector_witness :
    match_selector (.pdict [("x", .pstr "y")]) (.pdict []) = .ok false :=
  C1_empty_selector_amended (.pdict [("x", .pstr "y")]) (.pdict []) rfl

/-- C2: the extraction pipeline is claimed never to raise, with a Service
whose `spec.selector` is a string given as an example that is skipped.  In
fact `rels_service_to_workloads` wraps the string selector unchecked into
`{"matchLabels": sel}`, and `match_selector` then calls `.items()` on the
string (line 80), raising `AttributeError` and aborting the whole
extraction.  Both the end-to-end pipeline and the inner call are evaluated
at the failing input. -/
theorem C2_extraction_aborts :
    build_edges [C2deploy, C2svc] = .error "AttributeError" ∧
    match_selector (.pdict [("app", .pstr "web")])
      (.pdict [("matchLabels", .pstr "app=web")]) = .error "AttributeError" :=
  ⟨rfl, rfl⟩

/-- C3: a CronJob carries its pod template under
`spec.jobTemplate.spec.template`, but `index_resources` (line 142) only
records resources with a `"template"` key directly under `spec`, and
`labels_of_template` (line 62) only reads `spec.template...`; so the
CronJob gets no pod-template entry at all (the claim requires one with its
job template's labels), and its template-label read comes back empty. -/
theorem C3_cronjob_template_missing :
    index_resources [C3cron] =
      .ok (.pdict [("CronJob", .pdict [("default", .pdict [("cj", C3cron)])])], []) ∧
    labels_of_template C3cron = .ok (.pdict []) :=
  ⟨rfl, rfl⟩

/-- C4: `meta` (line 54) defaults the namespace to `"default"` for every
kind and never rewrites it to `"cluster"`; `index_resources` indexes with
exactly that namespace.  A ClusterRole without a namespace field lands
under `"default"`, one with `namespace: ns1` under `"ns1"` — never under
the synthetic `"cluster"` scope the claim requires. -/
theorem C4_cluster_kinds_under_default :
    metaOf C4cr = .ok (.pstr "ClusterRole", .pstr "default", .pstr "admin") ∧
    index_resources [C4cr, C4crNs] =
      .ok (.pdict [("ClusterRole", .pdict [("default", .pdict [("admin", C4cr)]),
        ("ns1", .pdict [("edit", C4crNs)])])], []) :=
  ⟨rfl, rfl⟩

/-- C5, counterexample: with two namespaces `a` and `b` and one
ClusterRoleBinding, the assembled edge list contains the binding's
`"binds"` edge twice — once per namespace — not exactly once as the claim
requires. -/
theorem C5_cluster_rbac_counterexample :
    (build_edges C5docs).map (fun es => es.count C5binds) = .ok 2 ∧
    (Except.ok 2 : Except String Nat) ≠ .ok 1 :=
  ⟨rfl, by intro h; exact absurd (Except.ok.inj h) (by decide)⟩

/-- C5, amended: the ClusterRoleBinding part of `rels_sa_rbac` runs inside
the per-namespace extractor (lines 257-267) and iterates all
ClusterRoleBindings on every run, so a binding's edges appear once per
distinct non-cluster namespace: every per-namespace call on this index
yields the same single `"binds"` edge, and the assembled list over the two
namespaces `a`, `b` holds it exactly twice.  Only `rels_pvc_pv` is
appended exactly once (line 387). -/
theorem C5_cluster_rbac_amended :
    index_resources C5docs = .ok (.pdict C5byEntries, []) ∧
    (∀ ns : String, rels_sa_rbac (.pdict C5byEntries) ns = .ok [C5binds]) ∧
    (build_edges C5docs).map (fun es => es.count C5binds) = .ok 2 :=
  ⟨rfl, fun _ => rfl, rfl⟩

/-- C6: for any Ingress whose referenced backend names evaluate to the
string list `ss` (path backends plus default backend, in order),
`rels_from_ingress` emits exactly one `"routes to"` edge per distinct
referenced service name: the count of the edge for `svc` is 1 when `svc`
is referenced and 0 otherwise, thanks to the `set(backends)` deduplication
on line 167. -/
theorem C6_routes_edge_per_distinct_name (ns iname : String) (ing : PVal)
    (ss : List String) (h : ingress_backends ing = .ok (ss.map PVal.pstr)) :
    ∃ es, ingress_edges ns iname ing = .ok es ∧
      ∀ svc : String, es.count (routesEdge ns iname svc) = if svc ∈ ss then 1 else 0 := by
  refine ⟨(pySet ss).map (routesEdge ns iname), ?_, ?_⟩
  · simp only [ingress_edges, h, exbind_ok]
    have hm := pySetAux_map_pstr ss []
    simp only [List.map_nil] at hm
    rw [pySet, hm, List.map_map]
    rfl
  · intro svc
    rw [count_map_inj (routesEdge ns iname) (routesEdge_inj ns iname), pySet_count]

/-- C6, witness: the Ingress referencing service `a` through two path
rules yields exactly one edge to it. -/
theorem C6_routes_edge_witness :
    ∃ es, ingress_edges "ns1" "ing1" C6ing = .ok es ∧
      es.count (routesEdge "ns1" "ing1" "a") = 1 := by
  obtain ⟨es, he, hc⟩ := C6_routes_edge_per_distinct_name "ns1" "ing1" C6ing ["a", "a"] rfl
  exact ⟨es, he, by simpa using hc "a"⟩

/-- C7: a ServiceAccount subject of a RoleBinding in namespace `ns` with a
non-empty name and no `namespace` key produces exactly one `"to"` edge,
and its destination is the ServiceAccount triple in `ns` itself (line 252:
`s.get("namespace", ns)`) — no other namespace can appear since the output
is exactly this one edge.  `rbLoop` runs this on every subject. -/
theorem C7_subject_defaults_to_binding_ns (ns rbname n : String)
    (es : List (String × PVal))
    (hk : dictLookup es "kind" = some (.pstr "ServiceAccount"))
    (hns : dictLookup es "namespace" = none)
    (hn : dictLookup es "name" = some (.pstr n))
    (hne : n ≠ "") :
    sa_subject_edges (pkey "RoleBinding" ns rbname) ns (.pdict es) =
      .ok [(pkey "RoleBinding" ns rbname, pkey "ServiceAccount" ns n, "to")] := by
  simp [sa_subject_edges, PVal.get, hk, hns, hn, PVal.isStrEq, PVal.truthy, pyStr, hne]

/-- C7, witness at a concrete subject. -/
theorem C7_subject_defaults_witness :
    sa_subject_edges (pkey "RoleBinding" "ns1" "rb1") "ns1"
      (.pdict [("kind", .pstr "ServiceAccount"), ("name", .pstr "sa1")]) =
      .ok [(pkey "RoleBinding" "ns1" "rb1", pkey "ServiceAccount" "ns1" "sa1", "to")] :=
  C7_subject_defaults_to_binding_ns "ns1" "rb1" "sa1"
    [("kind", .pstr "ServiceAccount"), ("name", .pstr "sa1")] rfl rfl rfl (by decide)

/-- C8, counterexample: narrowing fails at the empty selector.  The empty
selector matches nothing (line 76), yet extending it with a
`DoesNotExist` expression term produces a selector that matches the empty
label set — so a match of the extended selector does not imply a match of
the original. -/
theorem C8_narrowing_counterexample :
    match_selector (.pdict []) (.pdict []) = .ok false ∧
    match_selector (.pdict [])
      (.pdict [("matchExpressions", .plist [.pdict [("key", .pstr "k"),
        ("operator", .pstr "DoesNotExist")]])]) = .ok true :=
  ⟨rfl, rfl⟩

/-- C8, amended: narrowing holds for every selector that is non-empty as a
mapping (at least one of the two keys present): adding an equality term or
an expression term can only narrow or preserve the matched set.  The sole
exception is the empty selector of the counterexample. -/
theorem C8_narrowing_amended (L : List (String × String)) (S : Selector)
    (p : String × String) (e : MatchExpr) (hS : selTruthy S = true) :
    (matchSelectorT L (extendEq S p) = true → matchSelectorT L S = true) ∧
    (matchSelectorT L (extendExpr S e) = true → matchSelectorT L S = true) := by
  constructor
  · intro h
    simp [matchSelectorT, extendEq, mlOk, selTruthy, List.all_append] at h
    simp [matchSelectorT, hS, mlOk]
    tauto
  · intro h
    simp [matchSelectorT, extendExpr, mlOk, selTruthy, List.all_append] at h
    simp [matchSelectorT, hS, mlOk]
    tauto

/-- C8, witness: both parts of the amended theorem applied at concrete
inputs where the extended selector matches. -/
theorem C8_narrowing_witness :
    matchSelectorT [("a", "x"), ("k", "v")] ⟨some [("a", "x")], none⟩ = true ∧
    matchSelectorT [("a", "x")] ⟨some [("a", "x")], none⟩ = true :=
  ⟨(C8_narrowing_amended [("a", "x"), ("k", "v")] ⟨some [("a", "x")], none⟩ ("k", "v")
      ⟨some "q", some "DoesNotExist", []⟩ (by decide)).1 (by decide),
   (C8_narrowing_amended [("a", "x")] ⟨some [("a", "x")], none⟩ ("k", "v")
      ⟨some "q", some "DoesNotExist", []⟩ (by decide)).2 (by decide)⟩

/-- C9: a PersistentVolumeClaim whose spec carries a non-empty
`volumeName` yields exactly one `"bound to"` edge, from the claim's triple
in its own namespace to the PersistentVolume triple in the `"cluster"`
scope (line 276), whatever the claim's namespace; and the full pipeline on
the spec's end-to-end scenario (claim `data` in `db` bound to `pv-001`)
produces exactly that single edge. -/
theorem C9_pvc_bound_to_cluster :
    (∀ ns name vol : String, vol ≠ "" →
      pvc_edges ns name (.pdict [("spec", .pdict [("volumeName", .pstr vol)])]) =
        .ok [(pkey "PersistentVolumeClaim" ns name,
              pkey "PersistentVolume" "cluster" vol, "bound to")]) ∧
    build_edges [C9pvc] =
      .ok [(pkey "PersistentVolumeClaim" "db" "data",
            pkey "PersistentVolume" "cluster" "pv-001", "bound to")] := by
  constructor
  · intro ns name vol hv
    simp [pvc_edges, PVal.get, dictLookup, pyOr, PVal.truthy, pyStr, hv]
  · rfl

/-- C9, witness for the universally quantified part. -/
theorem C9_pvc_bound_witness :
    pvc_edges "db" "data" (.pdict [("spec", .pdict [("volumeName", .pstr "pv-001")])]) =
      .ok [(pkey "PersistentVolumeClaim" "db" "data",
            pkey "PersistentVolume" "cluster" "pv-001", "bound to")] :=
  C9_pvc_bound_to_cluster.1 "db" "data" "pv-001" (by decide)

/-- C10: expression terms with an operator other than the four recognized
strings impose no constraint: the match result is unchanged when all such
terms are removed, and a selector consisting only of such terms matches
every label set (the selector mapping is truthy, its `matchLabels` part is
empty, and every term passes). -/
theorem C10_unrecognized_ops_no_constraint (L : List (String × String)) (S : Selector)
    (es : List MatchExpr) (h : ∀ e ∈ es, recognizedOp e.operator = false) :
    matchSelectorT L S = matchSelectorT L (removeUnrec S) ∧
    matchSelectorT L ⟨none, some es⟩ = true := by
  constructor
  · cases hme : S.matchExpressions with
    | none => simp [removeUnrec, hme, matchSelectorT, selTruthy]
    | some es2 => simp [removeUnrec, hme, matchSelectorT, selTruthy, all_unrec_or]
  · simp [matchSelectorT, selTruthy, mlOk, List.all_eq_true]
    intro e he
    exact exprOk_unrec L e (h e he)

/-- C10, witness: a `Gt` term changes nothing and alone matches
everything. -/
theorem C10_unrecognized_ops_witness :
    matchSelectorT [("app", "web")]
      ⟨some [("app", "web")], some [⟨some "version", some "Gt", ["1"]⟩]⟩ =
      matchSelectorT [("app", "web")]
        (removeUnrec ⟨some [("app", "web")], some [⟨some "version", some "Gt", ["1"]⟩]⟩) ∧
    matchSelectorT [] ⟨none, some [⟨some "version", some "Gt", ["1"]⟩]⟩ = true :=
  ⟨(C10_unrecognized_ops_no_constraint [("app", "web")]
      ⟨some [("app", "web")], some [⟨some "version", some "Gt", ["1"]⟩]⟩
      [⟨some "version", some "Gt", ["1"]⟩] (by decide)).1,
   (C10_unrecognized_ops_no_constraint []
      ⟨none, some [⟨some "version", some "Gt", ["1"]⟩]⟩
      [⟨some "version", some "Gt", ["1"]⟩] (by decide)).2⟩
